import Mathlib

/-!
Shallow embedding of the arena-survivor game (Rust sources under `src/`).

Conventions of the embedding:
* `f32` values that take part in exact geometry (positions, velocities,
  collision radii) are idealised as real numbers `ℝ`, so that `sqrt` and
  trigonometric functions are available.
* `f32` values that only take part in field arithmetic and comparisons
  (stat tables, cooldown timers, colors, margins) are idealised as exact
  rationals `ℚ`, keeping those definitions computable and decidable.
* Rust `Result<T, String>` becomes `Except String T`; functions that mutate
  `&mut self` and return `Result<(), String>` become
  `State → State × Except String Unit` so that partial mutation before an
  early `?`-return is modelled faithfully.
* External collaborators (the Roto configuration provider, the random
  number generator, the screen size) enter as explicit parameters.
-/

namespace MacroRoto

/-- Two-dimensional vector over the reals, mirroring `macroquad`'s `Vec2`. -/
structure Vec2 where
  x : ℝ
  y : ℝ

namespace Vec2

noncomputable def sub (a b : Vec2) : Vec2 := ⟨a.x - b.x, a.y - b.y⟩

noncomputable def add (a b : Vec2) : Vec2 := ⟨a.x + b.x, a.y + b.y⟩

noncomputable def neg (a : Vec2) : Vec2 := ⟨-a.x, -a.y⟩

/-- Scalar multiplication `v * s`. -/
noncomputable def smul (a : Vec2) (s : ℝ) : Vec2 := ⟨a.x * s, a.y * s⟩

/-- Componentwise division by a scalar, `v / s`. -/
noncomputable def div (a : Vec2) (s : ℝ) : Vec2 := ⟨a.x / s, a.y / s⟩

noncomputable instance : Sub Vec2 := ⟨Vec2.sub⟩

noncomputable instance : Add Vec2 := ⟨Vec2.add⟩

noncomputable instance : Neg Vec2 := ⟨Vec2.neg⟩

/-- Squared euclidean length, `Vec2::length_squared`. -/
noncomputable def length_squared (a : Vec2) : ℝ := a.x * a.x + a.y * a.y

/-- Euclidean length, `Vec2::length`. -/
noncomputable def length (a : Vec2) : ℝ := Real.sqrt a.length_squared

/-- Distance between two points. -/
noncomputable def dist (a b : Vec2) : ℝ := (a - b).length

/-- Unit vector in the direction of `a` (glam's `normalize`, no zero guard:
division by a zero length is handled by `ℝ`'s `x / 0 = 0` convention). -/
noncomputable def normalize (a : Vec2) : Vec2 := a.div a.length

@[simp] theorem sub_def (a b : Vec2) : a - b = ⟨a.x - b.x, a.y - b.y⟩ := rfl

@[simp] theorem neg_def (a : Vec2) : -a = ⟨-a.x, -a.y⟩ := rfl

theorem neg_neg_vec (a : Vec2) : - - a = a := by simp

end Vec2

/-- Threshold below which the collision code falls back to a fixed normal
(the literal `0.0001` in `collision.rs`). -/
noncomputable def epsilon : ℝ := 1 / 10000

/-- Shape of a collidable entity (`Collider` in `collision.rs`). -/
inductive Collider where
  | Circle (radius : ℝ)
  | Rect (width height : ℝ)

/-- Result record of a collision query (`CollisionData`). -/
structure CollisionData where
  collided : Bool
  penetration_depth : ℝ
  normal : Vec2

namespace CollisionData

noncomputable def none : CollisionData := ⟨false, 0, ⟨0, 0⟩⟩

noncomputable def new (penetration_depth : ℝ) (normal : Vec2) : CollisionData :=
  ⟨true, penetration_depth, normal⟩

end CollisionData

/-- Circle-circle collision test (`circle_circle` in `collision.rs`). -/
noncomputable def circle_circle (pos1 : Vec2) (r1 : ℝ) (pos2 : Vec2) (r2 : ℝ) :
    CollisionData :=
  let delta := pos1 - pos2
  let distance_sq := delta.length_squared
  let radii_sum := r1 + r2
  let radii_sum_sq := radii_sum * radii_sum
  if distance_sq < radii_sum_sq then
    let distance := Real.sqrt distance_sq
    let penetration := radii_sum - distance
    let normal := if epsilon < distance then delta.div distance else ⟨1, 0⟩
    CollisionData.new penetration normal
  else
    CollisionData.none

/-- Rust's `f32::clamp(lo, hi)`. -/
noncomputable def clampR (x lo hi : ℝ) : ℝ := min (max x lo) hi

/-- Circle versus centered axis-aligned rectangle (`circle_rect`). -/
noncomputable def circle_rect (circle_pos : Vec2) (radius : ℝ) (rect_pos : Vec2)
    (width height : ℝ) : CollisionData :=
  let half_width := width / 2
  let half_height := height / 2
  let closest_x := clampR circle_pos.x (rect_pos.x - half_width) (rect_pos.x + half_width)
  let closest_y := clampR circle_pos.y (rect_pos.y - half_height) (rect_pos.y + half_height)
  let closest_point : Vec2 := ⟨closest_x, closest_y⟩
  let delta := circle_pos - closest_point
  let distance_sq := delta.length_squared
  if distance_sq < radius * radius then
    let distance := Real.sqrt distance_sq
    let penetration := radius - distance
    let normal :=
      if epsilon < distance then delta.div distance
      else
        let dx_left := |circle_pos.x - (rect_pos.x - half_width)|
        let dx_right := |(rect_pos.x + half_width) - circle_pos.x|
        let dy_top := |circle_pos.y - (rect_pos.y - half_height)|
        let dy_bottom := |(rect_pos.y + half_height) - circle_pos.y|
        let min_dist := min (min (min dx_left dx_right) dy_top) dy_bottom
        if min_dist = dx_left then (⟨-1, 0⟩ : Vec2)
        else if min_dist = dx_right then ⟨1, 0⟩
        else if min_dist = dy_top then ⟨0, -1⟩
        else ⟨0, 1⟩
    CollisionData.new penetration normal
  else
    CollisionData.none

/-- Two centered axis-aligned rectangles (`rect_rect`). -/
noncomputable def rect_rect (pos1 : Vec2) (w1 h1 : ℝ) (pos2 : Vec2) (w2 h2 : ℝ) :
    CollisionData :=
  let half_w1 := w1 / 2
  let half_h1 := h1 / 2
  let half_w2 := w2 / 2
  let half_h2 := h2 / 2
  let delta := pos1 - pos2
  let overlap_x := (half_w1 + half_w2) - |delta.x|
  let overlap_y := (half_h1 + half_h2) - |delta.y|
  if 0 < overlap_x ∧ 0 < overlap_y then
    if overlap_x < overlap_y then
      CollisionData.new overlap_x ⟨if 0 < delta.x then 1 else -1, 0⟩
    else
      CollisionData.new overlap_y ⟨0, if 0 < delta.y then 1 else -1⟩
  else
    CollisionData.none

/-- Shape dispatch (`check_collision` in `collision.rs`). -/
noncomputable def check_collision (collider1 : Collider) (pos1 : Vec2)
    (collider2 : Collider) (pos2 : Vec2) : CollisionData :=
  match collider1, collider2 with
  | Collider.Circle r1, Collider.Circle r2 => circle_circle pos1 r1 pos2 r2
  | Collider.Circle radius, Collider.Rect width height =>
      circle_rect pos1 radius pos2 width height
  | Collider.Rect width height, Collider.Circle radius =>
      let result := circle_rect pos2 radius pos1 width height
      { result with normal := result.normal.neg }
  | Collider.Rect w1 h1, Collider.Rect w2 h2 => rect_rect pos1 w1 h1 pos2 w2 h2

/-- Per-entity movement stats (`EntityStats`, identical in `entity.rs` and
`enemy.rs`). -/
structure EntityStats where
  radius : ℚ
  max_speed : ℚ
  acceleration : ℚ
  friction : ℚ
deriving DecidableEq

/-- Tunable simulation constants (`GameConstants` in `roto_script.rs`). -/
structure GameConstants where
  out_of_bounds_margin : ℚ
  spawn_target_offset : ℚ
deriving DecidableEq

/-- Wave composition (`WaveConfig` in `roto_script.rs`). -/
structure WaveConfig where
  basic_enemy_count : ℕ
  chaser_enemy_count : ℕ
deriving DecidableEq

/-- RGBA color (`ColorConfig` in `visual_config.rs`). -/
structure ColorConfig where
  r : ℚ
  g : ℚ
  b : ℚ
  a : ℚ
deriving DecidableEq

namespace ColorConfig

def red : ColorConfig := ⟨1, 0, 0, 1⟩
def green : ColorConfig := ⟨0, 1, 0, 1⟩
def blue : ColorConfig := ⟨0, 0, 1, 1⟩
def yellow : ColorConfig := ⟨1, 1, 0, 1⟩
def orange : ColorConfig := ⟨1, 0.65, 0, 1⟩
def purple : ColorConfig := ⟨0.5, 0, 0.5, 1⟩
def white : ColorConfig := ⟨1, 1, 1, 1⟩
def black : ColorConfig := ⟨0, 0, 0, 1⟩

end ColorConfig

/-- Player visual tuning (`PlayerVisualConfig`). -/
structure PlayerVisualConfig where
  circle_color : ColorConfig
  indicator_color : ColorConfig
  indicator_size : ℚ
deriving DecidableEq

def PlayerVisualConfig.default : PlayerVisualConfig :=
  ⟨ColorConfig.yellow, ColorConfig.green, 3⟩

/-- Enemy visual tuning (`EnemyVisualConfig`). -/
structure EnemyVisualConfig where
  circle_color : ColorConfig
  indicator_color : ColorConfig
  indicator_size : ℚ
deriving DecidableEq

def EnemyVisualConfig.basic_default : EnemyVisualConfig :=
  ⟨ColorConfig.red, ColorConfig.white, 3⟩

def EnemyVisualConfig.chaser_default : EnemyVisualConfig :=
  ⟨ColorConfig.orange, ColorConfig.white, 3⟩

/-- Projectile visual tuning (`ProjectileVisualConfig`). -/
structure ProjectileVisualConfig where
  primary_color : ColorConfig
  secondary_color : ColorConfig
  indicator_color : ColorConfig
deriving DecidableEq

def ProjectileVisualConfig.energy_ball_default : ProjectileVisualConfig :=
  ⟨ColorConfig.purple, ColorConfig.purple, ColorConfig.white⟩

def ProjectileVisualConfig.pulse_default : ProjectileVisualConfig :=
  ⟨⟨0.5, 0, 0.5, 0.3⟩, ColorConfig.purple, ColorConfig.white⟩

def ProjectileVisualConfig.homing_missile_default : ProjectileVisualConfig :=
  ⟨ColorConfig.orange, ColorConfig.yellow, ColorConfig.yellow⟩

/-- Two-color blend (`BlendConfig`). -/
structure BlendConfig where
  inner_color : ColorConfig
  outer_color : ColorConfig
deriving DecidableEq

def BlendConfig.pulse_default : BlendConfig :=
  ⟨⟨0.8, 0.2, 0.8, 0.8⟩, ⟨0.3, 0, 0.3, 0.1⟩⟩

/-- Bundle of all visual tuning (`GameVisualConfig`). -/
structure GameVisualConfig where
  player : PlayerVisualConfig
  basic_enemy : EnemyVisualConfig
  chaser_enemy : EnemyVisualConfig
  energy_ball : ProjectileVisualConfig
  pulse : ProjectileVisualConfig
  homing_missile : ProjectileVisualConfig
  pulse_blend : BlendConfig
deriving DecidableEq

def GameVisualConfig.default : GameVisualConfig :=
  ⟨PlayerVisualConfig.default, EnemyVisualConfig.basic_default,
   EnemyVisualConfig.chaser_default, ProjectileVisualConfig.energy_ball_default,
   ProjectileVisualConfig.pulse_default, ProjectileVisualConfig.homing_missile_default,
   BlendConfig.pulse_default⟩

/-- Projectile kind (`ProjectileType` in `projectile.rs`). -/
inductive ProjectileType where
  | EnergyBall
  | Pulse
  | HomingMissile
deriving DecidableEq

/-- Stats bundle of one projectile (`ProjectileStats`). -/
structure ProjectileStats where
  damage : ℚ
  speed : ℚ
  radius : ℚ
  width : ℚ
  height : ℚ
  time_to_live : ℚ
  turning_rate : ℚ
deriving DecidableEq

namespace ProjectileStats

def energy_ball_default : ProjectileStats :=
  { damage := 10, speed := 300, radius := 8, width := 0, height := 0,
    time_to_live := 2, turning_rate := 0 }

def pulse_default : ProjectileStats :=
  { damage := 15, speed := 0, radius := 0, width := 100, height := 100,
    time_to_live := 0.3, turning_rate := 0 }

def homing_missile_default : ProjectileStats :=
  { damage := 20, speed := 250, radius := 6, width := 0, height := 0,
    time_to_live := 3, turning_rate := 3 }

/-- Modelled from the spec: the `From<ProjectileType> for ProjectileStats`
conversion is called by `spawn_projectile` (`gamestate/mod.rs`) and by
`WeaponStats::from` (`weapon.rs`) but its `impl` is not among the source
files; per the spec's per-type stats bundles it resolves each projectile
type to that type's default stats bundle. -/
def fromType : ProjectileType → ProjectileStats
  | ProjectileType.EnergyBall => energy_ball_default
  | ProjectileType.Pulse => pulse_default
  | ProjectileType.HomingMissile => homing_missile_default

end ProjectileStats

/-- Enemy kind (`EnemyType` in `enemy.rs`). -/
inductive EnemyType where
  | Basic
  | Chaser
deriving DecidableEq

/-- Weapon kind (`WeaponType` in `weapon.rs`). -/
inductive WeaponType where
  | EnergyBall
  | Pulse
  | HomingMissile
deriving DecidableEq

/-- Spawn request (`SpawnCommand` in `entity.rs`; the projectile variant
carries the firing weapon's projectile stats bundle). -/
inductive SpawnCommand where
  | Projectile (projectile_type : ProjectileType) (pos vel : Vec2)
      (stats : ProjectileStats)
  | Enemy (enemy_type : EnemyType) (pos : Vec2)

/-- Stat block of a weapon (`WeaponStats` in `weapon.rs`). -/
structure WeaponStats where
  cooldown : ℚ
  projectile_count : ℕ
  spread_angle : ℚ
  projectile_stats : ProjectileStats
deriving DecidableEq

/-- Per-type starting stats (`impl From<WeaponType> for WeaponStats`). -/
def WeaponStats.fromType : WeaponType → WeaponStats
  | WeaponType.EnergyBall =>
      { cooldown := 1.5, projectile_count := 1, spread_angle := 0,
        projectile_stats := ProjectileStats.fromType ProjectileType.EnergyBall }
  | WeaponType.Pulse =>
      { cooldown := 3, projectile_count := 1, spread_angle := 0,
        projectile_stats := ProjectileStats.fromType ProjectileType.Pulse }
  | WeaponType.HomingMissile =>
      { cooldown := 2, projectile_count := 1, spread_angle := 0,
        projectile_stats := ProjectileStats.fromType ProjectileType.HomingMissile }

/-- Weapon state (`Weapon` in `weapon.rs`). -/
structure Weapon where
  weapon_type : WeaponType
  level : ℕ
  cooldown_remaining : ℚ
  stats : WeaponStats
deriving DecidableEq

/-- Degrees to radians (`f32::to_radians`). -/
noncomputable def toRadians (deg : ℚ) : ℝ := (deg : ℝ) * Real.pi / 180

/-- Rotation of a vector by an angle (`Weapon::rotate_vector`). -/
noncomputable def rotate_vector (vec : Vec2) (angle_rad : ℝ) : Vec2 :=
  let cos_a := Real.cos angle_rad
  let sin_a := Real.sin angle_rad
  ⟨vec.x * cos_a - vec.y * sin_a, vec.x * sin_a + vec.y * cos_a⟩

namespace Weapon

/-- Construct a fresh level-1 weapon (`Weapon::new`). -/
def new (weapon_type : WeaponType) : Weapon :=
  { weapon_type, level := 1, cooldown_remaining := 0,
    stats := WeaponStats.fromType weapon_type }

/-- Tick the cooldown timer (`Weapon::update`). -/
def update (w : Weapon) (dt : ℚ) : Weapon :=
  if 0 < w.cooldown_remaining then
    { w with cooldown_remaining := w.cooldown_remaining - dt }
  else w

/-- Cooldown gate (`Weapon::can_fire`). -/
def can_fire (w : Weapon) : Prop := w.cooldown_remaining ≤ 0

instance (w : Weapon) : Decidable w.can_fire := by
  unfold can_fire; infer_instance

/-- Straight or fanned energy-ball pattern (`Weapon::fire_energy_ball`). -/
noncomputable def fire_energy_ball (w : Weapon) (player_pos player_facing : Vec2) :
    List SpawnCommand :=
  if w.stats.projectile_count = 1 then
    let vel := player_facing.normalize.smul (w.stats.projectile_stats.speed : ℝ)
    [SpawnCommand.Projectile ProjectileType.EnergyBall player_pos vel
        w.stats.projectile_stats]
  else
    let spread_rad := toRadians w.stats.spread_angle
    let angle_step : ℝ :=
      if 1 < w.stats.projectile_count then
        spread_rad * 2 / ((w.stats.projectile_count - 1 : ℕ) : ℝ)
      else 0
    (List.range w.stats.projectile_count).map fun (i : ℕ) =>
      let angle_offset := -spread_rad + (i : ℝ) * angle_step
      let direction := rotate_vector player_facing angle_offset
      let vel := direction.normalize.smul (w.stats.projectile_stats.speed : ℝ)
      SpawnCommand.Projectile ProjectileType.EnergyBall player_pos vel
        w.stats.projectile_stats

/-- Single stationary pulse (`Weapon::fire_pulse`). -/
noncomputable def fire_pulse (w : Weapon) (player_pos : Vec2) : List SpawnCommand :=
  [SpawnCommand.Projectile ProjectileType.Pulse player_pos ⟨0, 0⟩
      w.stats.projectile_stats]

/-- Straight or fanned homing-missile pattern (`Weapon::fire_homing_missile`). -/
noncomputable def fire_homing_missile (w : Weapon) (player_pos player_facing : Vec2) :
    List SpawnCommand :=
  if w.stats.projectile_count = 1 then
    let vel := player_facing.normalize.smul (w.stats.projectile_stats.speed : ℝ)
    [SpawnCommand.Projectile ProjectileType.HomingMissile player_pos vel
        w.stats.projectile_stats]
  else
    let spread_rad := toRadians w.stats.spread_angle
    let angle_step : ℝ :=
      if 1 < w.stats.projectile_count then
        spread_rad * 2 / ((w.stats.projectile_count - 1 : ℕ) : ℝ)
      else 0
    (List.range w.stats.projectile_count).map fun (i : ℕ) =>
      let angle_offset := -spread_rad + (i : ℝ) * angle_step
      let direction := rotate_vector player_facing angle_offset
      let vel := direction.normalize.smul (w.stats.projectile_stats.speed : ℝ)
      SpawnCommand.Projectile ProjectileType.HomingMissile player_pos vel
        w.stats.projectile_stats

/-- Fire if off cooldown: returns the updated weapon and the emitted spawn
requests (`Weapon::fire`). -/
noncomputable def fire (w : Weapon) (player_pos player_facing : Vec2) :
    Weapon × List SpawnCommand :=
  if ¬ w.can_fire then (w, [])
  else
    let w2 := { w with cooldown_remaining := w.stats.cooldown }
    let commands :=
      match w.weapon_type with
      | WeaponType.EnergyBall => fire_energy_ball w player_pos player_facing
      | WeaponType.Pulse => fire_pulse w player_pos
      | WeaponType.HomingMissile => fire_homing_missile w player_pos player_facing
    (w2, commands)

/-- Stat progression on level-up (`Weapon::level_up`); the level is bumped
first and the `>= 5` tier test reads the new level. -/
def level_up (w : Weapon) : Weapon :=
  let w := { w with level := w.level + 1 }
  match w.weapon_type with
  | WeaponType.EnergyBall =>
      if 5 ≤ w.level then
        { w with stats :=
            { w.stats with
                projectile_count := w.stats.projectile_count + 3,
                spread_angle := 75,
                cooldown := max (w.stats.cooldown * 0.85) 0.1,
                projectile_stats :=
                  { w.stats.projectile_stats with
                      speed := w.stats.projectile_stats.speed * 1.25,
                      damage := w.stats.projectile_stats.damage + 2 } } }
      else
        { w with stats :=
            { w.stats with
                projectile_count := w.stats.projectile_count + 1,
                spread_angle := 30,
                cooldown := max (w.stats.cooldown * 0.95) 0.3,
                projectile_stats :=
                  { w.stats.projectile_stats with
                      speed := w.stats.projectile_stats.speed * 1.05,
                      damage := w.stats.projectile_stats.damage + 2 } } }
  | WeaponType.Pulse =>
      if 5 ≤ w.level then
        { w with stats :=
            { w.stats with
                cooldown := max (w.stats.cooldown * 0.80) 0.5,
                projectile_stats :=
                  { w.stats.projectile_stats with
                      width := w.stats.projectile_stats.width + 25,
                      height := w.stats.projectile_stats.height + 25,
                      damage := w.stats.projectile_stats.damage + 3,
                      time_to_live := w.stats.projectile_stats.time_to_live + 0.1 } } }
      else
        { w with stats :=
            { w.stats with
                cooldown := max (w.stats.cooldown * 0.95) 1,
                projectile_stats :=
                  { w.stats.projectile_stats with
                      width := w.stats.projectile_stats.width + 15,
                      height := w.stats.projectile_stats.height + 15,
                      damage := w.stats.projectile_stats.damage + 3,
                      time_to_live := w.stats.projectile_stats.time_to_live + 0.05 } } }
  | WeaponType.HomingMissile =>
      if 5 ≤ w.level then
        { w with stats :=
            { w.stats with
                projectile_count := w.stats.projectile_count + 2,
                spread_angle := 30,
                cooldown := max (w.stats.cooldown * 0.85) 0.1,
                projectile_stats :=
                  { w.stats.projectile_stats with
                      turning_rate := w.stats.projectile_stats.turning_rate * 1.25,
                      speed := w.stats.projectile_stats.speed * 1.35 } } }
      else
        { w with stats :=
            { w.stats with
                cooldown := max (w.stats.cooldown * 0.92) 0.4,
                projectile_stats :=
                  { w.stats.projectile_stats with
                      damage := w.stats.projectile_stats.damage + 4,
                      turning_rate := w.stats.projectile_stats.turning_rate * 1.15,
                      speed := w.stats.projectile_stats.speed * 1.10 } } }

end Weapon

/-- Player state (`Player` in `player.rs`). -/
structure Player where
  pos : Vec2
  vel : Vec2
  facing : Vec2
  stats : EntityStats
  weapons : List Weapon
  visual_config : PlayerVisualConfig
  xp : ℕ
  level : ℕ

namespace Player

/-- Fresh player without weapons (`Player::new`). -/
noncomputable def new (x y : ℝ) (stats : EntityStats) : Player :=
  { pos := ⟨x, y⟩, vel := ⟨0, 0⟩, facing := ⟨1, 0⟩, stats, weapons := [],
    visual_config := PlayerVisualConfig.default, xp := 0, level := 0 }

/-- Cumulative XP needed to hold `level` (`Player::xp_for_level`); the source
accumulates `total += 5 * i` for `i` in `1..=level`. -/
def xp_for_level (level : ℕ) : ℕ :=
  if level = 0 then 0
  else (List.range' 1 level).foldl (fun total i => total + 5 * i) 0

/-- Threshold for the next level (`Player::xp_for_next_level`). -/
def xp_for_next_level (p : Player) : ℕ := xp_for_level (p.level + 1)

/-- Award XP and perform the single level-up check (`Player::add_xp`);
returns the updated player and whether a level-up occurred. -/
def add_xp (p : Player) (xp : ℕ) : Player × Bool :=
  let p := { p with xp := p.xp + xp }
  if p.xp_for_next_level ≤ p.xp then ({ p with level := p.level + 1 }, true)
  else (p, false)

/-- Append a fresh weapon of the given type (`Player::add_weapon`). -/
def add_weapon (p : Player) (weapon_type : WeaponType) : Player :=
  { p with weapons := p.weapons ++ [Weapon.new weapon_type] }

/-- In-place update of the list element at `index`, mirroring the Rust
`if index < len { weapons[index].level_up() }` (out of range is a no-op). -/
def modifyAt (f : Weapon → Weapon) : ℕ → List Weapon → List Weapon
  | _, [] => []
  | 0, w :: ws => f w :: ws
  | n + 1, w :: ws => w :: modifyAt f n ws

/-- Upgrade the weapon at `index` (`Player::level_up_weapon`). -/
def level_up_weapon (p : Player) (index : ℕ) : Player :=
  { p with weapons := modifyAt Weapon.level_up index p.weapons }

/-- Replace the stat block (`Player::override_stats`). -/
def override_stats (p : Player) (stats : EntityStats) : Player :=
  { p with stats }

/-- Replace the visual configuration (`Player::override_visual_config`). -/
def override_visual_config (p : Player) (visual_config : PlayerVisualConfig) :
    Player :=
  { p with visual_config }

end Player

/-- Enemy state (`Enemy` in `enemy.rs`; ids are assigned by the game state). -/
structure Enemy where
  id : ℕ
  pos : Vec2
  vel : Vec2
  enemy_type : EnemyType
  stats : EntityStats
  visual_config : EnemyVisualConfig

/-- Replace an enemy's stat block (`Enemy::override_stats`). -/
def Enemy.override_stats (e : Enemy) (stats : EntityStats) : Enemy :=
  { e with stats }

/-- Projectile state (`Projectile`, with the id field used by
`gamestate/mod.rs`). -/
structure Projectile where
  id : ℕ
  pos : Vec2
  vel : Vec2
  projectile_type : ProjectileType
  stats : ProjectileStats
  time_remaining : ℚ
  source_pos : Vec2
  visual_config : ProjectileVisualConfig

/-- Game phases (`GameStateEnum` in `gamestate/mod.rs`). -/
inductive GameStateEnum where
  | WeaponSelection
  | Playing
  | GameOver
  | ScriptError
deriving DecidableEq

/-- The simulation state (`GameState` in `gamestate/mod.rs`), with the time
accounting fields and the external script runtime left out: time enters the
modelled functions explicitly, and the configuration provider is abstracted
as a `RotoResults` argument. -/
structure GameState where
  player : Player
  enemies : List Enemy
  projectiles : List Projectile
  state : GameStateEnum
  next_state : Option GameStateEnum
  wave : ℕ
  error_message : Option String
  paused : Bool
  visual_config : GameVisualConfig
  game_constants : GameConstants
  basic_enemy_stats : EntityStats
  chaser_enemy_stats : EntityStats
  next_entity_id : ℕ
  enemies_to_despawn : Finset ℕ
  projectiles_to_despawn : Finset ℕ

/-- Results of the five fallible configuration-provider calls, abstracting
`RotoScriptManager` after a (re)load. -/
structure RotoResults where
  player_stats : Except String EntityStats
  game_constants : Except String GameConstants
  basic_enemy_stats : Except String EntityStats
  chaser_enemy_stats : Except String EntityStats
  visual_config : Except String GameVisualConfig

/-- Fallback extraction, mirroring Rust's `unwrap_or`. -/
def getOr {α : Type} (r : Except String α) (d : α) : α :=
  match r with
  | Except.ok a => a
  | Except.error _ => d

namespace GameState

/-- Construct the initial game state (`GameState::new`): every provider call
degrades to a hardcoded default on failure. -/
noncomputable def new (w h : ℝ) (r : RotoResults) : GameState :=
  let player_stats := getOr r.player_stats
    { radius := 20, max_speed := 5, acceleration := 1, friction := 0.9 }
  let visual_config := getOr r.visual_config GameVisualConfig.default
  let game_constants := getOr r.game_constants
    { out_of_bounds_margin := 50, spawn_target_offset := 100 }
  let basic_enemy_stats := getOr r.basic_enemy_stats
    { radius := 15, max_speed := 3, acceleration := 0.5, friction := 0.95 }
  let chaser_enemy_stats := getOr r.chaser_enemy_stats
    { radius := 12, max_speed := 4, acceleration := 0.8, friction := 0.95 }
  let player := (Player.new (w / 2) (h / 2) player_stats).override_visual_config
    visual_config.player
  { player, enemies := [], projectiles := [], state := GameStateEnum.WeaponSelection,
    next_state := none, wave := 0, error_message := none, paused := false,
    visual_config, game_constants, basic_enemy_stats, chaser_enemy_stats,
    next_entity_id := 0, enemies_to_despawn := ∅, projectiles_to_despawn := ∅ }

/-- Request a phase transition (`GameState::set_next_state`). -/
def set_next_state (gs : GameState) (s : GameStateEnum) : GameState :=
  { gs with next_state := some s }

/-- Arena test with margin (`GameState::is_in_bounds`); `w`/`h` are the
screen dimensions the source reads from the window. -/
def is_in_bounds (w h : ℝ) (pos : Vec2) (margin : ℚ) : Prop :=
  -(margin : ℝ) ≤ pos.x ∧ pos.x ≤ w + (margin : ℝ) ∧
    -(margin : ℝ) ≤ pos.y ∧ pos.y ≤ h + (margin : ℝ)

noncomputable instance (w h : ℝ) (pos : Vec2) (margin : ℚ) :
    Decidable (is_in_bounds w h pos margin) := Classical.dec _

/-- Loop body of the out-of-bounds despawn pass: energy balls and homing
missiles are marked when outside the extended arena, pulses are skipped. -/
noncomputable def oob_mark (w h : ℝ) (margin : ℚ) (acc : Finset ℕ)
    (p : Projectile) : Finset ℕ :=
  match p.projectile_type with
  | ProjectileType.EnergyBall | ProjectileType.HomingMissile =>
      if is_in_bounds w h p.pos margin then acc else insert p.id acc
  | ProjectileType.Pulse => acc

/-- Mark out-of-bounds projectiles for despawn, skipping pulses
(`GameState::despawn_projectiles_out_of_bounds`). -/
noncomputable def despawn_projectiles_out_of_bounds (w h : ℝ) (gs : GameState) :
    GameState :=
  let margin := gs.game_constants.out_of_bounds_margin
  { gs with projectiles_to_despawn :=
      gs.projectiles.foldl (oob_mark w h margin) gs.projectiles_to_despawn }

/-- Stat refresh applied to each live enemy during a reload (the loop body
in `reload_roto_script_internal`). -/
def reloadEnemyUpdate (bs cs : EntityStats) (e : Enemy) : Enemy :=
  match e.enemy_type with
  | EnemyType.Basic => e.override_stats bs
  | EnemyType.Chaser => e.override_stats cs

/-- Script reload body (`GameState::reload_roto_script_internal`): each `?`
may return early, leaving the fields written by the earlier successful calls
already overwritten. The pair carries the (possibly partially mutated) state
together with the `Result`. -/
def reload_roto_script_internal (gs : GameState) (r : RotoResults) :
    GameState × Except String Unit :=
  match r.player_stats with
  | Except.error e => (gs, Except.error e)
  | Except.ok ps =>
    let gs := { gs with player := gs.player.override_stats ps }
    match r.game_constants with
    | Except.error e => (gs, Except.error e)
    | Except.ok gc =>
      let gs := { gs with game_constants := gc }
      match r.basic_enemy_stats with
      | Except.error e => (gs, Except.error e)
      | Except.ok bs =>
        let gs := { gs with basic_enemy_stats := bs }
        match r.chaser_enemy_stats with
        | Except.error e => (gs, Except.error e)
        | Except.ok cs =>
          let gs := { gs with chaser_enemy_stats := cs }
          let gs := { gs with enemies := gs.enemies.map (reloadEnemyUpdate bs cs) }
          match r.visual_config with
          | Except.error e => (gs, Except.error e)
          | Except.ok vc =>
            let gs := { gs with visual_config := vc }
            let gs := { gs with player := gs.player.override_visual_config vc.player }
            (gs, Except.ok ())

/-- User-requested reload (`GameState::reload_roto_scripts`): converts the
internal result into a `Playing` or `ScriptError` transition. -/
def reload_roto_scripts (gs : GameState) (r : RotoResults) : GameState :=
  match reload_roto_script_internal gs r with
  | (gs2, Except.ok _) =>
      { gs2.set_next_state GameStateEnum.Playing with error_message := none }
  | (gs2, Except.error err) =>
      { gs2.set_next_state GameStateEnum.ScriptError with error_message := some err }

/-- Instantiate one projectile from a spawn request
(`GameState::spawn_projectile`): note that the stats bundle is resolved from
the projectile type, not taken from the request. -/
noncomputable def spawn_projectile (gs : GameState) (projectile_type : ProjectileType)
    (pos vel : Vec2) : GameState :=
  let id := gs.next_entity_id
  let gs := { gs with next_entity_id := id + 1 }
  let stats := ProjectileStats.fromType projectile_type
  let visual_config :=
    match projectile_type with
    | ProjectileType.EnergyBall => gs.visual_config.energy_ball
    | ProjectileType.Pulse => gs.visual_config.pulse
    | ProjectileType.HomingMissile => gs.visual_config.homing_missile
  let projectile : Projectile :=
    match projectile_type with
    | ProjectileType.EnergyBall =>
        { id, pos, vel := vel.normalize.smul (stats.speed : ℝ),
          projectile_type := ProjectileType.EnergyBall, stats,
          time_remaining := stats.time_to_live, source_pos := pos, visual_config }
    | ProjectileType.Pulse =>
        { id, pos, vel := ⟨0, 0⟩, projectile_type := ProjectileType.Pulse, stats,
          time_remaining := stats.time_to_live, source_pos := pos, visual_config }
    | ProjectileType.HomingMissile =>
        { id, pos, vel := vel.normalize.smul (stats.speed : ℝ),
          projectile_type := ProjectileType.HomingMissile, stats,
          time_remaining := stats.time_to_live, source_pos := pos, visual_config }
  { gs with projectiles := gs.projectiles ++ [projectile] }

/-- Instantiate one enemy (`GameState::spawn_enemy`): `tx_off`/`ty_off` and
`speed` stand for the three `rand::gen_range` draws, `w`/`h` for the screen
size. The source function's `Result` is always `Ok(())`. -/
noncomputable def spawn_enemy (gs : GameState) (enemy_type : EnemyType) (pos : Vec2)
    (tx_off ty_off speed w h : ℝ) : GameState × Except String Unit :=
  let id := gs.next_entity_id
  let gs := { gs with next_entity_id := id + 1 }
  let stats :=
    match enemy_type with
    | EnemyType.Basic => gs.basic_enemy_stats
    | EnemyType.Chaser => gs.chaser_enemy_stats
  let visual_config :=
    match enemy_type with
    | EnemyType.Basic => gs.visual_config.basic_enemy
    | EnemyType.Chaser => gs.visual_config.chaser_enemy
  let target : Vec2 := ⟨w / 2 + tx_off, h / 2 + ty_off⟩
  let dir := (target - pos).normalize
  let vel := dir.smul speed
  let enemy : Enemy := { id, pos, vel, enemy_type, stats, visual_config }
  ({ gs with enemies := gs.enemies ++ [enemy] }, Except.ok ())

/-- Run a batch of spawn requests (`GameState::execute_spawn_commands`); the
projectile arm forwards only the type, position and velocity to
`spawn_projectile`, and a failed enemy spawn is logged and ignored. `rnd`
supplies the random draws for enemy spawns, indexed by list position. -/
noncomputable def execute_spawn_commands_aux (w h : ℝ) (rnd : ℕ → ℝ × ℝ × ℝ) :
    ℕ → GameState → List SpawnCommand → GameState
  | _, gs, [] => gs
  | k, gs, c :: rest =>
      let gs2 :=
        match c with
        | SpawnCommand.Projectile projectile_type pos vel _stats =>
            spawn_projectile gs projectile_type pos vel
        | SpawnCommand.Enemy enemy_type pos =>
            (spawn_enemy gs enemy_type pos (rnd k).1 (rnd k).2.1 (rnd k).2.2 w h).1
      execute_spawn_commands_aux w h rnd (k + 1) gs2 rest

noncomputable def execute_spawn_commands (w h : ℝ) (rnd : ℕ → ℝ × ℝ × ℝ)
    (gs : GameState) (commands : List SpawnCommand) : GameState :=
  execute_spawn_commands_aux w h rnd 0 gs commands

/-- Apply the pending despawn sets (`GameState::process_despawns`): award one
XP per killed enemy in a single `add_xp` call, request the weapon-selection
transition on level-up, then compact both entity lists and clear the sets. -/
def process_despawns (gs : GameState) : GameState :=
  let enemies_killed := gs.enemies_to_despawn.card
  let gs :=
    if 0 < enemies_killed then
      let res := gs.player.add_xp enemies_killed
      let gs := { gs with player := res.1 }
      if res.2 then gs.set_next_state GameStateEnum.WeaponSelection else gs
    else gs
  { gs with
      enemies := gs.enemies.filter fun e => decide (e.id ∉ gs.enemies_to_despawn),
      projectiles := gs.projectiles.filter fun p =>
        decide (p.id ∉ gs.projectiles_to_despawn),
      enemies_to_despawn := ∅,
      projectiles_to_despawn := ∅ }

end GameState

/-- Spawn every enemy of one type for a wave, with the source's `?` error
propagation (inner part of `spawn_wave` in `gamestate/playing.rs`). The
streams `rpos`, `rt`, `rs` supply the random spawn positions and draws. -/
noncomputable def spawn_enemy_loop (enemy_type : EnemyType) (w h : ℝ)
    (rpos : ℕ → Vec2) (rt : ℕ → ℝ × ℝ) (rs : ℕ → ℝ) :
    ℕ → GameState → GameState × Except String Unit
  | 0, gs => (gs, Except.ok ())
  | n + 1, gs =>
      match gs.spawn_enemy enemy_type (rpos n) (rt n).1 (rt n).2 (rs n) w h with
      | (gs2, Except.ok _) => spawn_enemy_loop enemy_type w h rpos rt rs n gs2
      | (gs2, Except.error e) => (gs2, Except.error e)

/-- Spawn a whole wave (`spawn_wave` in `gamestate/playing.rs`): first the
basic enemies, then the chasers, propagating any `spawn_enemy` error. -/
noncomputable def spawn_wave (gs : GameState) (config : WaveConfig) (w h : ℝ)
    (rpos1 : ℕ → Vec2) (rt1 : ℕ → ℝ × ℝ) (rs1 : ℕ → ℝ)
    (rpos2 : ℕ → Vec2) (rt2 : ℕ → ℝ × ℝ) (rs2 : ℕ → ℝ) :
    GameState × Except String Unit :=
  match spawn_enemy_loop EnemyType.Basic w h rpos1 rt1 rs1
      config.basic_enemy_count gs with
  | (gs2, Except.ok _) =>
      spawn_enemy_loop EnemyType.Chaser w h rpos2 rt2 rs2
        config.chaser_enemy_count gs2
  | (gs2, Except.error e) => (gs2, Except.error e)

/-- Wave creation branch of the `Playing` phase (`process` in
`gamestate/playing.rs`, lines 10-26): a wave-config lookup failure or a
`spawn_wave` failure sets the state to `ScriptError` directly, success
increments the wave counter. -/
noncomputable def process_wave_spawn (gs : GameState)
    (cfg : Except String WaveConfig) (w h : ℝ)
    (rpos1 : ℕ → Vec2) (rt1 : ℕ → ℝ × ℝ) (rs1 : ℕ → ℝ)
    (rpos2 : ℕ → Vec2) (rt2 : ℕ → ℝ × ℝ) (rs2 : ℕ → ℝ) : GameState :=
  match cfg with
  | Except.ok config =>
      match spawn_wave gs config w h rpos1 rt1 rs1 rpos2 rt2 rs2 with
      | (gs2, Except.ok _) => { gs2 with wave := gs2.wave + 1 }
      | (gs2, Except.error err) =>
          { gs2 with state := GameStateEnum.ScriptError, error_message := some err }
  | Except.error err =>
      { gs with state := GameStateEnum.ScriptError, error_message := some err }

/-- Weapon-selection key handling (`handle_weapon_selection` in
`gamestate/weapon_selection.rs`): upgrade an owned weapon of the chosen type,
or add a new one when fewer than three are owned; either action requests the
`Playing` transition. -/
def handle_weapon_selection (gs : GameState) (weapon_type : WeaponType) :
    GameState :=
  match gs.player.weapons.findIdx? (fun w => w.weapon_type == weapon_type) with
  | some index =>
      { gs.set_next_state GameStateEnum.Playing with
          player := gs.player.level_up_weapon index }
  | none =>
      if gs.player.weapons.length < 3 then
        { gs.set_next_state GameStateEnum.Playing with
            player := gs.player.add_weapon weapon_type }
      else gs

/-! Shared sample state for witnesses: the initial game state constructed
with every provider call failing, so that all stats are the hardcoded
defaults and the player owns no weapon. -/

def sampleRotoFail : RotoResults :=
  ⟨Except.error "e", Except.error "e", Except.error "e", Except.error "e",
    Except.error "e"⟩

noncomputable def sampleGameState : GameState :=
  GameState.new 800 600 sampleRotoFail

/-! Helper lemmas about `xp_for_level`. -/

theorem xp_for_level_eq_foldl (n : ℕ) :
    Player.xp_for_level n =
      (List.range' 1 n).foldl (fun total i => total + 5 * i) 0 := by
  cases n with
  | zero => rfl
  | succ m => simp [Player.xp_for_level]

theorem xp_for_level_succ (n : ℕ) :
    Player.xp_for_level (n + 1) = Player.xp_for_level n + 5 * (1 + n) := by
  rw [xp_for_level_eq_foldl, xp_for_level_eq_foldl, List.range'_concat,
    List.foldl_append]
  simp [List.foldl_cons]

theorem two_mul_xp_for_level (n : ℕ) :
    2 * Player.xp_for_level n = 5 * n * (n + 1) := by
  induction n with
  | zero => rfl
  | succ m ih =>
      calc 2 * Player.xp_for_level (m + 1)
          = 2 * Player.xp_for_level m + 10 * (1 + m) := by
            rw [xp_for_level_succ]; ring
        _ = 5 * m * (m + 1) + 10 * (1 + m) := by rw [ih]
        _ = 5 * (m + 1) * (m + 1 + 1) := by ring

/-- C5: `Player::xp_for_level` agrees with the closed form
`5 * L * (L + 1) / 2` for every level `L`, so the cumulative thresholds for
levels 1, 2 and 3 are exactly 5, 15 and 30. -/
theorem C5_xp_for_level_closed_form :
    (∀ L : ℕ, Player.xp_for_level L = 5 * L * (L + 1) / 2) ∧
      Player.xp_for_level 1 = 5 ∧ Player.xp_for_level 2 = 15 ∧
      Player.xp_for_level 3 = 30 := by
  refine ⟨fun L => ?_, by decide, by decide, by decide⟩
  rw [← two_mul_xp_for_level, Nat.mul_div_cancel_left _ (by norm_num : 0 < 2)]

theorem add_xp_level (p : Player) (n : ℕ) :
    (p.add_xp n).1.level = p.level ∨ (p.add_xp n).1.level = p.level + 1 := by
  unfold Player.add_xp
  dsimp only
  split
  · right; rfl
  · left; rfl

theorem process_despawns_player (gs : GameState) :
    gs.process_despawns.player =
      if 0 < gs.enemies_to_despawn.card
      then (gs.player.add_xp gs.enemies_to_despawn.card).1 else gs.player := by
  simp only [GameState.process_despawns]
  by_cases h : 0 < gs.enemies_to_despawn.card
  · rw [if_pos h, if_pos h]
    cases hres : (gs.player.add_xp gs.enemies_to_despawn.card).2 <;>
      simp [GameState.set_next_state]
  · rw [if_neg h, if_neg h]

theorem process_despawns_next_state (gs : GameState) :
    gs.process_despawns.next_state =
      if 0 < gs.enemies_to_despawn.card ∧
          (gs.player.add_xp gs.enemies_to_despawn.card).2 = true
      then some GameStateEnum.WeaponSelection else gs.next_state := by
  simp only [GameState.process_despawns]
  by_cases h : 0 < gs.enemies_to_despawn.card
  · rw [if_pos h]
    cases hres : (gs.player.add_xp gs.enemies_to_despawn.card).2 <;>
      simp [GameState.set_next_state, h, hres]
  · rw [if_neg h]
    simp [h]

/-- C6: a single despawn batch raises the player's level by at most one —
`add_xp` increments the level counter at most once however many thresholds
the new XP total crosses — and `process_despawns` requests at most one
transition, to `WeaponSelection`, leaving `next_state` alone otherwise. -/
theorem C6_single_level_up_per_batch :
    (∀ (p : Player) (n : ℕ),
        (p.add_xp n).1.level = p.level ∨ (p.add_xp n).1.level = p.level + 1) ∧
      (∀ gs : GameState,
        gs.process_despawns.player.level ≤ gs.player.level + 1 ∧
          (gs.process_despawns.next_state = some GameStateEnum.WeaponSelection ∨
            gs.process_despawns.next_state = gs.next_state)) := by
  refine ⟨add_xp_level, fun gs => ?_⟩
  constructor
  · rw [process_despawns_player]
    split
    · rcases add_xp_level gs.player gs.enemies_to_despawn.card with h | h <;> omega
    · omega
  · rw [process_despawns_next_state]
    split
    · left; rfl
    · right; rfl

theorem level_up_weapon_type (w : Weapon) :
    w.level_up.weapon_type = w.weapon_type := by
  unfold Weapon.level_up
  cases hw : w.weapon_type <;> simp [hw] <;> split <;> rfl

theorem modifyAt_length (i : ℕ) (ws : List Weapon) :
    (Player.modifyAt Weapon.level_up i ws).length = ws.length := by
  induction ws generalizing i with
  | nil => cases i <;> rfl
  | cons w ws ih =>
      cases i with
      | zero => rfl
      | succ j => simpa [Player.modifyAt] using ih j

theorem modifyAt_map_weapon_type (i : ℕ) (ws : List Weapon) :
    (Player.modifyAt Weapon.level_up i ws).map (fun w => w.weapon_type) =
      ws.map fun w => w.weapon_type := by
  induction ws generalizing i with
  | nil => cases i <;> rfl
  | cons w ws ih =>
      cases i with
      | zero => simp [Player.modifyAt, level_up_weapon_type]
      | succ j => simpa [Player.modifyAt] using ih j

theorem findIdx?_none_not_mem (ws : List Weapon) (t : WeaponType)
    (h : ws.findIdx? (fun w => w.weapon_type == t) = none) :
    t ∉ ws.map fun w => w.weapon_type := by
  intro hmem
  obtain ⟨w, hw, hwt⟩ := List.mem_map.mp hmem
  rw [List.findIdx?_eq_none_iff] at h
  have := h w hw
  simp [hwt] at this

/-- C9: handling a weapon-type selection preserves the weapons invariant —
starting from at most three weapons with pairwise distinct types, the result
again has at most three weapons with pairwise distinct types, and the list
either stays as it is, has one weapon upgraded in place, or gains a fresh
weapon of a type not yet owned while fewer than three were owned. -/
theorem C9_weapon_selection_invariant (gs : GameState) (t : WeaponType)
    (hlen : gs.player.weapons.length ≤ 3)
    (hnodup : (gs.player.weapons.map fun w => w.weapon_type).Nodup) :
    (handle_weapon_selection gs t).player.weapons.length ≤ 3 ∧
      ((handle_weapon_selection gs t).player.weapons.map
          fun w => w.weapon_type).Nodup ∧
      ((handle_weapon_selection gs t).player.weapons = gs.player.weapons ∨
        (∃ i, (handle_weapon_selection gs t).player.weapons =
            Player.modifyAt Weapon.level_up i gs.player.weapons) ∨
        (gs.player.weapons.length < 3 ∧
          (t ∉ gs.player.weapons.map fun w => w.weapon_type) ∧
          (handle_weapon_selection gs t).player.weapons =
            gs.player.weapons ++ [Weapon.new t])) := by
  unfold handle_weapon_selection
  cases hidx : gs.player.weapons.findIdx? (fun w => w.weapon_type == t) with
  | some i =>
      refine ⟨?_, ?_, Or.inr (Or.inl ⟨i, rfl⟩)⟩
      · show (Player.modifyAt Weapon.level_up i gs.player.weapons).length ≤ 3
        rw [modifyAt_length]; exact hlen
      · show ((Player.modifyAt Weapon.level_up i gs.player.weapons).map
            fun w => w.weapon_type).Nodup
        rw [modifyAt_map_weapon_type]; exact hnodup
  | none =>
      have hnot := findIdx?_none_not_mem gs.player.weapons t hidx
      by_cases hlt : gs.player.weapons.length < 3
      · rw [if_pos hlt]
        refine ⟨?_, ?_, Or.inr (Or.inr ⟨hlt, hnot, rfl⟩)⟩
        · show (gs.player.weapons ++ [Weapon.new t]).length ≤ 3
          simp only [List.length_append, List.length_cons, List.length_nil]
          omega
        · show ((gs.player.weapons ++ [Weapon.new t]).map
              fun w => w.weapon_type).Nodup
          have : (Weapon.new t).weapon_type = t := rfl
          simp only [List.map_append, List.map_cons, List.map_nil, this]
          rw [List.nodup_append]
          exact ⟨hnodup, List.nodup_singleton t,
            by simpa [List.disjoint_singleton] using hnot⟩
      · rw [if_neg hlt]
        exact ⟨hlen, hnodup, Or.inl rfl⟩

/-- Witness for C9: the freshly constructed game state satisfies both
hypotheses (no weapons owned), and the invariant conclusion holds after
selecting the energy ball. -/
theorem C9_weapon_selection_invariant_witness :
    sampleGameState.player.weapons.length ≤ 3 ∧
      (sampleGameState.player.weapons.map fun w => w.weapon_type).Nodup ∧
      (handle_weapon_selection sampleGameState
          WeaponType.EnergyBall).player.weapons.length ≤ 3 :=
  ⟨by norm_num [sampleGameState, GameState.new, Player.new,
      Player.override_visual_config],
    by simp [sampleGameState, GameState.new, Player.new,
      Player.override_visual_config],
    (C9_weapon_selection_invariant sampleGameState WeaponType.EnergyBall
      (by norm_num [sampleGameState, GameState.new, Player.new,
        Player.override_visual_config])
      (by simp [sampleGameState, GameState.new, Player.new,
        Player.override_visual_config])).1⟩

/-- C3 (amended): if any provider call during an explicit reload fails, the
game transitions to `ScriptError` with the message recorded and the error
never escapes; the stats belonging to the failing and to later provider
calls keep their prior values, but stats fetched by earlier successful calls
are already overwritten — in particular, only when the very first call
(`get_player_stats`) fails is the whole live state left untouched. -/
theorem C3_reload_failure_prefix_mutation (gs : GameState) (r : RotoResults) :
    (∀ e, r.player_stats = Except.error e →
        gs.reload_roto_scripts r =
          { gs with
            next_state := some GameStateEnum.ScriptError,
            error_message := some e }) ∧
      (∀ ps e, r.player_stats = Except.ok ps →
          r.game_constants = Except.error e →
          gs.reload_roto_scripts r =
            { gs with
              player := gs.player.override_stats ps,
              next_state := some GameStateEnum.ScriptError,
              error_message := some e }) ∧
      (∀ ps gc e, r.player_stats = Except.ok ps →
          r.game_constants = Except.ok gc →
          r.basic_enemy_stats = Except.error e →
          gs.reload_roto_scripts r =
            { gs with
              player := gs.player.override_stats ps,
              game_constants := gc,
              next_state := some GameStateEnum.ScriptError,
              error_message := some e }) ∧
      (∀ ps gc bs e, r.player_stats = Except.ok ps →
          r.game_constants = Except.ok gc →
          r.basic_enemy_stats = Except.ok bs →
          r.chaser_enemy_stats = Except.error e →
          gs.reload_roto_scripts r =
            { gs with
              player := gs.player.override_stats ps,
              game_constants := gc,
              basic_enemy_stats := bs,
              next_state := some GameStateEnum.ScriptError,
              error_message := some e }) ∧
      (∀ ps gc bs cs e, r.player_stats = Except.ok ps →
          r.game_constants = Except.ok gc →
          r.basic_enemy_stats = Except.ok bs →
          r.chaser_enemy_stats = Except.ok cs →
          r.visual_config = Except.error e →
          gs.reload_roto_scripts r =
            { gs with
              player := gs.player.override_stats ps,
              game_constants := gc,
              basic_enemy_stats := bs,
              chaser_enemy_stats := cs,
              enemies := gs.enemies.map (GameState.reloadEnemyUpdate bs cs),
              next_state := some GameStateEnum.ScriptError,
              error_message := some e }) := by
  refine ⟨fun e h1 => ?_, fun ps e h1 h2 => ?_, fun ps gc e h1 h2 h3 => ?_,
    fun ps gc bs e h1 h2 h3 h4 => ?_, fun ps gc bs cs e h1 h2 h3 h4 h5 => ?_⟩ <;>
    simp only [GameState.reload_roto_scripts, GameState.reload_roto_script_internal, h1] <;>
    try simp only [h2] <;>
    try simp only [h3] <;>
    try simp only [h4] <;>
    try simp only [h5]
  all_goals rfl

/-- Provider outcome where `get_player_stats` succeeds with new values but
`get_game_constants` (and everything after it) fails. -/
def reloadFailProvider : RotoResults :=
  ⟨Except.ok ⟨21, 5, 1, 0.9⟩, Except.error "boom", Except.error "boom",
    Except.error "boom", Except.error "boom"⟩

/-- Counterexample to C3 as stated: a reload in which `get_player_stats`
succeeds and `get_game_constants` fails does transition to `ScriptError`,
but the player's stats have already been overwritten — they are not left
exactly as they were before the reload attempt. -/
theorem C3_counterexample :
    (sampleGameState.reload_roto_scripts reloadFailProvider).next_state =
        some GameStateEnum.ScriptError ∧
      (sampleGameState.reload_roto_scripts reloadFailProvider).player.stats =
        ⟨21, 5, 1, 0.9⟩ ∧
      sampleGameState.player.stats = ⟨20, 5, 1, 0.9⟩ ∧
      (sampleGameState.reload_roto_scripts reloadFailProvider).player.stats ≠
        sampleGameState.player.stats := by
  refine ⟨rfl, rfl, rfl, ?_⟩
  intro h
  have hr := congrArg EntityStats.radius h
  norm_num [sampleGameState, sampleRotoFail, getOr, GameState.set_next_state,
    GameState.new, Player.new, Player.override_stats,
    Player.override_visual_config, GameState.reload_roto_scripts,
    GameState.reload_roto_script_internal, reloadFailProvider] at hr

/-- Witness for the amended C3: the characterization applied at a concrete
state and provider outcome whose second call fails. -/
theorem C3_reload_failure_prefix_mutation_witness :
    sampleGameState.reload_roto_scripts reloadFailProvider =
      { sampleGameState with
        player := sampleGameState.player.override_stats ⟨21, 5, 1, 0.9⟩,
        next_state := some GameStateEnum.ScriptError,
        error_message := some "boom" } :=
  (C3_reload_failure_prefix_mutation sampleGameState reloadFailProvider).2.1
    ⟨21, 5, 1, 0.9⟩ "boom" rfl rfl

theorem spawn_enemy_ok (gs : GameState) (enemy_type : EnemyType) (pos : Vec2)
    (tx_off ty_off speed w h : ℝ) :
    (gs.spawn_enemy enemy_type pos tx_off ty_off speed w h).2 = Except.ok () :=
  rfl

theorem spawn_enemy_loop_ok (enemy_type : EnemyType) (w h : ℝ)
    (rpos : ℕ → Vec2) (rt : ℕ → ℝ × ℝ) (rs : ℕ → ℝ) (n : ℕ) (gs : GameState) :
    (spawn_enemy_loop enemy_type w h rpos rt rs n gs).2 = Except.ok () := by
  induction n generalizing gs with
  | zero => rfl
  | succ m ih =>
      rw [spawn_enemy_loop]
      exact ih _

/-- C10: `GameState::spawn_enemy` returns `Ok` for every enemy type and
spawn input, so `spawn_wave` cannot fail either: the only way the wave
creation branch of the `Playing` phase reaches `ScriptError` is a failing
wave-config lookup, never the per-enemy spawn loop. -/
theorem C10_spawn_enemy_never_fails :
    (∀ (gs : GameState) (enemy_type : EnemyType) (pos : Vec2)
        (tx_off ty_off speed w h : ℝ),
        (gs.spawn_enemy enemy_type pos tx_off ty_off speed w h).2 =
          Except.ok ()) ∧
      (∀ (gs : GameState) (config : WaveConfig) (w h : ℝ) rpos1 rt1 rs1 rpos2 rt2 rs2,
        (spawn_wave gs config w h rpos1 rt1 rs1 rpos2 rt2 rs2).2 =
          Except.ok ()) ∧
      (∀ (gs : GameState) (cfg : Except String WaveConfig)
          (w h : ℝ) rpos1 rt1 rs1 rpos2 rt2 rs2,
        (∀ e, cfg = Except.error e →
          (process_wave_spawn gs cfg w h rpos1 rt1 rs1 rpos2 rt2 rs2).state =
              GameStateEnum.ScriptError ∧
            (process_wave_spawn gs cfg w h rpos1 rt1 rs1 rpos2 rt2 rs2).error_message =
              some e) ∧
        (∀ config, cfg = Except.ok config →
          (process_wave_spawn gs cfg w h rpos1 rt1 rs1 rpos2 rt2 rs2).state =
            gs.state)) := by
  have hwave : ∀ (gs : GameState) (config : WaveConfig) (w h : ℝ)
      rpos1 rt1 rs1 rpos2 rt2 rs2,
      (spawn_wave gs config w h rpos1 rt1 rs1 rpos2 rt2 rs2).2 =
        Except.ok () := by
    intro gs config w h rpos1 rt1 rs1 rpos2 rt2 rs2
    unfold spawn_wave
    have h1 := spawn_enemy_loop_ok EnemyType.Basic w h rpos1 rt1 rs1
      config.basic_enemy_count gs
    rcases hb : spawn_enemy_loop EnemyType.Basic w h rpos1 rt1 rs1
        config.basic_enemy_count gs with ⟨gs2, res⟩
    rw [hb] at h1
    cases res with
    | ok u => exact spawn_enemy_loop_ok _ _ _ _ _ _ _ _
    | error e => simp at h1
  refine ⟨fun gs et pos a b c w h => rfl, hwave, ?_⟩
  intro gs cfg w h rpos1 rt1 rs1 rpos2 rt2 rs2
  constructor
  · intro e hcfg
    subst hcfg
    exact ⟨rfl, rfl⟩
  · intro config hcfg
    subst hcfg
    unfold process_wave_spawn
    have h2 := hwave gs config w h rpos1 rt1 rs1 rpos2 rt2 rs2
    rcases hsw : spawn_wave gs config w h rpos1 rt1 rs1 rpos2 rt2 rs2 with ⟨gs2, res⟩
    rw [hsw] at h2
    cases res with
    | ok u =>
        have hstate : gs2.state = gs.state := by
          have hkeep : ∀ (et : EnemyType) (w2 h2 : ℝ) rpos rt rs n (g : GameState),
              (spawn_enemy_loop et w2 h2 rpos rt rs n g).1.state = g.state := by
            intro et w2 h2 rpos rt rs n
            induction n with
            | zero => intro g; rfl
            | succ m ih =>
                intro g
                rw [spawn_enemy_loop]
                exact ih _
          have hb2 := spawn_enemy_loop_ok EnemyType.Basic w h rpos1 rt1 rs1
            config.basic_enemy_count gs
          rcases hb : spawn_enemy_loop EnemyType.Basic w h rpos1 rt1 rs1
              config.basic_enemy_count gs with ⟨gsb, resb⟩
          have hsw2 := hsw
          unfold spawn_wave at hsw2
          rw [hb] at hsw2 hb2
          cases resb with
          | ok u2 =>
              dsimp only at hsw2
              have e1 : gsb.state = gs.state := by
                have h3 := hkeep EnemyType.Basic w h rpos1 rt1 rs1
                  config.basic_enemy_count gs
                rw [hb] at h3
                exact h3
              have e2 := hkeep EnemyType.Chaser w h rpos2 rt2 rs2
                config.chaser_enemy_count gsb
              rw [hsw2] at e2
              exact e2.trans e1
          | error e2 => simp at hb2
        dsimp only
        rw [hsw]
        exact hstate
    | error e => simp at h2

/-- Witness for C10: at a concrete state, a failing wave-config lookup does
set the state to `ScriptError`. -/
theorem C10_spawn_enemy_never_fails_witness :
    (process_wave_spawn sampleGameState (Except.error "e") 800 600
        (fun _ => ⟨0, 0⟩) (fun _ => (0, 0)) (fun _ => 0)
        (fun _ => ⟨0, 0⟩) (fun _ => (0, 0)) (fun _ => 0)).state =
      GameStateEnum.ScriptError :=
  ((C10_spawn_enemy_never_fails.2.2 sampleGameState (Except.error "e") 800 600
      (fun _ => ⟨0, 0⟩) (fun _ => (0, 0)) (fun _ => 0)
      (fun _ => ⟨0, 0⟩) (fun _ => (0, 0)) (fun _ => 0)).1 "e" rfl).1

theorem mem_oob_mark (w h : ℝ) (margin : ℚ) (s : Finset ℕ) (p : Projectile)
    (i : ℕ) :
    i ∈ GameState.oob_mark w h margin s p ↔
      i ∈ s ∨ (p.projectile_type ≠ ProjectileType.Pulse ∧
        ¬ GameState.is_in_bounds w h p.pos margin ∧ p.id = i) := by
  cases hpt : p.projectile_type with
  | Pulse => simp [GameState.oob_mark, hpt]
  | EnergyBall =>
      by_cases hin : GameState.is_in_bounds w h p.pos margin
      · simp [GameState.oob_mark, hpt, hin]
      · simp [GameState.oob_mark, hpt, hin, Finset.mem_insert, eq_comm, or_comm]
  | HomingMissile =>
      by_cases hin : GameState.is_in_bounds w h p.pos margin
      · simp [GameState.oob_mark, hpt, hin]
      · simp [GameState.oob_mark, hpt, hin, Finset.mem_insert, eq_comm, or_comm]

theorem mem_foldl_oob_mark (w h : ℝ) (margin : ℚ) (l : List Projectile)
    (s : Finset ℕ) (i : ℕ) :
    i ∈ l.foldl (GameState.oob_mark w h margin) s ↔
      i ∈ s ∨ ∃ p ∈ l, p.projectile_type ≠ ProjectileType.Pulse ∧
        ¬ GameState.is_in_bounds w h p.pos margin ∧ p.id = i := by
  induction l generalizing s with
  | nil => simp
  | cons p rest ih =>
      rw [List.foldl_cons, ih, mem_oob_mark]
      simp only [List.mem_cons]
      constructor
      · rintro ((hs | hp) | ⟨q, hq, hqp⟩)
        · exact Or.inl hs
        · exact Or.inr ⟨p, Or.inl rfl, hp⟩
        · exact Or.inr ⟨q, Or.inr hq, hqp⟩
      · rintro (hs | ⟨q, (rfl | hq), hqp⟩)
        · exact Or.inl (Or.inl hs)
        · exact Or.inl (Or.inr hqp)
        · exact Or.inr ⟨q, hq, hqp⟩

/-- C8: the out-of-bounds despawn pass never marks a `Pulse` projectile, and
marks an `EnergyBall` or `HomingMissile` exactly when its position lies
outside the arena rectangle extended by the configured margin: an id is in
the resulting despawn set iff it was already there, or it belongs to a
non-pulse projectile outside the extended bounds. -/
theorem C8_oob_despawn_characterization (w h : ℝ) (gs : GameState) (i : ℕ) :
    i ∈ (GameState.despawn_projectiles_out_of_bounds w h gs).projectiles_to_despawn ↔
      i ∈ gs.projectiles_to_despawn ∨
        ∃ p ∈ gs.projectiles, p.projectile_type ≠ ProjectileType.Pulse ∧
          ¬ GameState.is_in_bounds w h p.pos
              gs.game_constants.out_of_bounds_margin ∧ p.id = i := by
  unfold GameState.despawn_projectiles_out_of_bounds
  exact mem_foldl_oob_mark w h gs.game_constants.out_of_bounds_margin
    gs.projectiles gs.projectiles_to_despawn i

/-- Projectile stats carried by the spawn request of a level-2 energy-ball
weapon: leveling up adds 2 damage, so the bundle carries damage 12. -/
def requestStats : ProjectileStats :=
  ((Weapon.new WeaponType.EnergyBall).level_up).stats.projectile_stats

/-- C4 evaluation: executing a spawn request that carries the leveled-up
stats bundle (damage 12) produces a projectile whose stats are the type
defaults (damage 10) — `spawn_projectile` ignores the stats carried in the
request, so the weapon's projectile-stat progression never reaches the
spawned projectiles. -/
theorem C4_spawned_stats_ignore_request :
    requestStats.damage = 12 ∧
      (GameState.execute_spawn_commands 800 600 (fun _ => (0, 0, 0))
          sampleGameState
          [SpawnCommand.Projectile ProjectileType.EnergyBall ⟨0, 0⟩ ⟨1, 0⟩
            requestStats]).projectiles.map (fun p => p.stats) =
        [ProjectileStats.fromType ProjectileType.EnergyBall] ∧
      (GameState.execute_spawn_commands 800 600 (fun _ => (0, 0, 0))
          sampleGameState
          [SpawnCommand.Projectile ProjectileType.EnergyBall ⟨0, 0⟩ ⟨1, 0⟩
            requestStats]).projectiles.map (fun p => p.stats.damage) = [10] ∧
      ProjectileStats.fromType ProjectileType.EnergyBall ≠ requestStats := by
  have hd : requestStats.damage = 12 := by
    norm_num [requestStats, Weapon.new, Weapon.level_up, WeaponStats.fromType,
      ProjectileStats.fromType, ProjectileStats.energy_ball_default]
  refine ⟨hd, rfl, rfl, fun h => ?_⟩
  have hc := congrArg ProjectileStats.damage h
  rw [hd] at hc
  norm_num [ProjectileStats.fromType, ProjectileStats.energy_ball_default] at hc

/-- Weapon states constructible through the weapon API: freshly created,
leveled up, ticked, or having fired. -/
inductive ReachableWeapon : Weapon → Prop where
  | new (t : WeaponType) : ReachableWeapon (Weapon.new t)
  | level_up {w : Weapon} : ReachableWeapon w → ReachableWeapon w.level_up
  | update {w : Weapon} (dt : ℚ) : ReachableWeapon w → ReachableWeapon (w.update dt)
  | fire {w : Weapon} (pos facing : Vec2) : ReachableWeapon w →
      ReachableWeapon (w.fire pos facing).1

theorem reachable_weapon_invariant {w : Weapon} (h : ReachableWeapon w) :
    1 ≤ w.stats.projectile_count ∧ 0 < w.stats.cooldown := by
  induction h with
  | new t =>
      cases t <;> constructor <;> norm_num [Weapon.new, WeaponStats.fromType]
  | level_up hw ih =>
      obtain ⟨ih1, ih2⟩ := ih
      rename_i w2
      unfold Weapon.level_up
      rcases hwt : w2.weapon_type <;> simp only [hwt] <;> split <;>
        refine ⟨by simp <;> omega, ?_⟩ <;>
        exact lt_max_of_lt_right (by norm_num)
  | update dt hw ih =>
      rename_i w2
      unfold Weapon.update
      split <;> exact ih
  | fire pos facing hw ih =>
      rename_i w2
      unfold Weapon.fire
      split
      · exact ih
      · exact ih

theorem fire_commands_ne_nil (w : Weapon) (pos facing : Vec2)
    (hcount : 1 ≤ w.stats.projectile_count) (hcf : w.can_fire) :
    (w.fire pos facing).2 ≠ [] := by
  unfold Weapon.fire
  rw [if_neg (not_not_intro hcf)]
  dsimp only
  cases hwt : w.weapon_type with
  | Pulse =>
      dsimp only
      simp [Weapon.fire_pulse]
  | EnergyBall =>
      dsimp only
      unfold Weapon.fire_energy_ball
      split
      · simp
      · simp only [ne_eq, List.map_eq_nil_iff, List.range_eq_nil]
        omega
  | HomingMissile =>
      dsimp only
      unfold Weapon.fire_homing_missile
      split
      · simp
      · simp only [ne_eq, List.map_eq_nil_iff, List.range_eq_nil]
        omega

/-- C7: for every reachable weapon, `fire` returns no spawn requests and
leaves the timer unchanged while the cooldown timer is strictly positive;
with the timer at or below zero it resets the timer to the current cooldown
stat and returns a non-empty request list. In particular a freshly created
level-1 weapon fires on its first call, and an immediate `update(0)`
followed by `fire()` returns zero spawn requests. -/
theorem C7_fire_cooldown_gate (w : Weapon) (hw : ReachableWeapon w)
    (pos facing : Vec2) :
    (0 < w.cooldown_remaining → w.fire pos facing = (w, [])) ∧
      (w.cooldown_remaining ≤ 0 →
        (w.fire pos facing).1.cooldown_remaining = w.stats.cooldown ∧
          (w.fire pos facing).2 ≠ []) ∧
      (∀ t : WeaponType, ((Weapon.new t).fire pos facing).2 ≠ []) ∧
      (∀ (t : WeaponType) (pos2 facing2 : Vec2),
        ((((Weapon.new t).fire pos facing).1.update 0).fire pos2 facing2).2 =
          []) := by
  refine ⟨fun hpos => ?_, fun hle => ?_, fun t => ?_, fun t pos2 facing2 => ?_⟩
  · unfold Weapon.fire
    rw [if_pos]
    intro hcf
    exact absurd hpos (not_lt.mpr hcf)
  · have hcf : w.can_fire := hle
    constructor
    · unfold Weapon.fire
      rw [if_neg (not_not_intro hcf)]
    · exact fire_commands_ne_nil w pos facing (reachable_weapon_invariant hw).1 hcf
  · refine fire_commands_ne_nil (Weapon.new t) pos facing ?_ ?_
    · cases t <;> norm_num [Weapon.new, WeaponStats.fromType]
    · show (Weapon.new t).cooldown_remaining ≤ 0
      cases t <;> norm_num [Weapon.new]
  · have hc : 0 < (Weapon.new t).stats.cooldown := by
      cases t <;> norm_num [Weapon.new, WeaponStats.fromType]
    have hfire1 : ((Weapon.new t).fire pos facing).1.cooldown_remaining =
        (Weapon.new t).stats.cooldown := by
      unfold Weapon.fire
      rw [if_neg (not_not_intro (show (Weapon.new t).can_fire from le_rfl))]
    have hupd : ((((Weapon.new t).fire pos facing).1.update 0)).cooldown_remaining =
        (Weapon.new t).stats.cooldown := by
      unfold Weapon.update
      rw [if_pos (by rw [hfire1]; exact hc)]
      dsimp only
      rw [hfire1]
      ring
    have hstop : ((((Weapon.new t).fire pos facing).1.update 0).fire pos2 facing2) =
        (((Weapon.new t).fire pos facing).1.update 0, []) := by
      unfold Weapon.fire
      rw [if_pos]
      intro hcf2
      have hcr : (0 : ℚ) <
          (((Weapon.new t).fire pos facing).1.update 0).cooldown_remaining := by
        rw [hupd]; exact hc
      exact absurd hcr (not_lt.mpr hcf2)
    rw [hstop]

/-- Witness for C7: a fresh pulse weapon has its timer at zero and its first
`fire` call emits a non-empty request list. -/
theorem C7_fire_cooldown_gate_witness :
    (Weapon.new WeaponType.Pulse).cooldown_remaining ≤ 0 ∧
      ((Weapon.new WeaponType.Pulse).fire ⟨0, 0⟩ ⟨1, 0⟩).2 ≠ [] :=
  ⟨le_rfl, ((C7_fire_cooldown_gate (Weapon.new WeaponType.Pulse)
      (ReachableWeapon.new WeaponType.Pulse) ⟨0, 0⟩ ⟨1, 0⟩).2.1 le_rfl).2⟩

theorem length_squared_nonneg (v : Vec2) : 0 ≤ v.length_squared :=
  add_nonneg (mul_self_nonneg v.x) (mul_self_nonneg v.y)

theorem circle_circle_pos (p1 : Vec2) (r1 : ℝ) (p2 : Vec2) (r2 : ℝ)
    (h : (p1 - p2).length_squared < (r1 + r2) * (r1 + r2)) :
    circle_circle p1 r1 p2 r2 =
      CollisionData.new (r1 + r2 - Real.sqrt ((p1 - p2).length_squared))
        (if epsilon < Real.sqrt ((p1 - p2).length_squared)
         then (p1 - p2).div (Real.sqrt ((p1 - p2).length_squared))
         else ⟨1, 0⟩) := by
  simp only [circle_circle]
  rw [if_pos h]

theorem length_div_self (v : Vec2) (c : ℝ) (hc : 0 < c)
    (hv : v.length_squared = c * c) : (v.div c).length = 1 := by
  unfold Vec2.length Vec2.div Vec2.length_squared
  dsimp only
  have hq : v.x / c * (v.x / c) + v.y / c * (v.y / c) =
      (v.x * v.x + v.y * v.y) / (c * c) := by ring
  rw [hq]
  have hxy : v.x * v.x + v.y * v.y = c * c := hv
  rw [hxy, div_self (by positivity), Real.sqrt_one]

/-- C1: for circle colliders whose center distance is strictly below the sum
of their radii, `check_collision` reports a collision with penetration depth
`r1 + r2` minus the distance and a unit normal: the unit vector from the
second center toward the first when the distance exceeds the epsilon
threshold, and the fixed vector `(1, 0)` when the centers (all but)
coincide, i.e. when the distance is at or below epsilon. -/
theorem C1_circle_circle_collision (r1 r2 : ℝ) (p1 p2 : Vec2)
    (h : Vec2.dist p1 p2 < r1 + r2) :
    ((check_collision (Collider.Circle r1) p1 (Collider.Circle r2) p2).collided
        = true) ∧
      (check_collision (Collider.Circle r1) p1
          (Collider.Circle r2) p2).penetration_depth =
        r1 + r2 - Vec2.dist p1 p2 ∧
      (check_collision (Collider.Circle r1) p1
          (Collider.Circle r2) p2).normal.length = 1 ∧
      (epsilon < Vec2.dist p1 p2 →
        (check_collision (Collider.Circle r1) p1 (Collider.Circle r2) p2).normal
          = (p1 - p2).div (Vec2.dist p1 p2)) ∧
      (Vec2.dist p1 p2 ≤ epsilon →
        (check_collision (Collider.Circle r1) p1 (Collider.Circle r2) p2).normal
          = ⟨1, 0⟩) := by
  have hd : Vec2.dist p1 p2 = Real.sqrt ((p1 - p2).length_squared) := rfl
  have h0 : 0 ≤ Real.sqrt ((p1 - p2).length_squared) := Real.sqrt_nonneg _
  have hlt : (p1 - p2).length_squared < (r1 + r2) * (r1 + r2) := by
    have hmul := mul_self_lt_mul_self h0 (hd ▸ h)
    rwa [Real.mul_self_sqrt (length_squared_nonneg _)] at hmul
  have hcc : check_collision (Collider.Circle r1) p1 (Collider.Circle r2) p2 =
      circle_circle p1 r1 p2 r2 := rfl
  rw [hcc, circle_circle_pos p1 r1 p2 r2 hlt]
  refine ⟨rfl, rfl, ?_, fun hn => ?_, fun hn => ?_⟩
  · by_cases hn : epsilon < Real.sqrt ((p1 - p2).length_squared)
    · rw [show (CollisionData.new _ _).normal = _ from rfl, if_pos hn]
      refine length_div_self _ _ ?_ ?_
      · calc (0 : ℝ) < epsilon := by norm_num [epsilon]
          _ < _ := hn
      · exact (Real.mul_self_sqrt (length_squared_nonneg _)).symm
    · rw [show (CollisionData.new _ _).normal = _ from rfl, if_neg hn]
      show Vec2.length ⟨1, 0⟩ = 1
      unfold Vec2.length Vec2.length_squared
      norm_num
  · rw [show (CollisionData.new _ _).normal = _ from rfl, if_pos (hd ▸ hn), hd]
    rfl
  · rw [show (CollisionData.new _ _).normal = _ from rfl,
      if_neg (not_lt.mpr (hd ▸ hn))]
    rfl

/-- Witness for C1: two radius-2 circles whose centers are 3 apart overlap
and are reported as collided. -/
theorem C1_circle_circle_collision_witness :
    Vec2.dist ⟨0, 0⟩ ⟨3, 0⟩ < 2 + 2 ∧
      (check_collision (Collider.Circle 2) ⟨0, 0⟩
        (Collider.Circle 2) ⟨3, 0⟩).collided = true := by
  have h9 : (Vec2.mk 0 0 - Vec2.mk 3 0).length_squared = 9 := by
    unfold Vec2.length_squared
    rw [Vec2.sub_def]
    norm_num
  have hd : Vec2.dist ⟨0, 0⟩ ⟨3, 0⟩ = 3 := by
    show Real.sqrt ((Vec2.mk 0 0 - Vec2.mk 3 0).length_squared) = 3
    rw [h9, show (9 : ℝ) = 3 ^ 2 by norm_num,
      Real.sqrt_sq (by norm_num : (0 : ℝ) ≤ 3)]
  exact ⟨by rw [hd]; norm_num,
    (C1_circle_circle_collision 2 2 ⟨0, 0⟩ ⟨3, 0⟩ (by rw [hd]; norm_num)).1⟩

theorem vec_neg_neg (v : Vec2) : Vec2.neg (Vec2.neg v) = v := by
  unfold Vec2.neg
  simp

theorem circle_circle_none (p1 : Vec2) (r1 : ℝ) (p2 : Vec2) (r2 : ℝ)
    (h : ¬ (p1 - p2).length_squared < (r1 + r2) * (r1 + r2)) :
    circle_circle p1 r1 p2 r2 = CollisionData.none := by
  simp only [circle_circle]
  rw [if_neg h]

/-- Counterexample to C2 as stated: with two unit circles both centered at
the origin, swapping the arguments of `check_collision` is the identity, yet
the reported normal is the fixed fallback `(1, 0)`, which is not equal to
its own negation — so the swapped call does not return an exactly negated
normal for every circle pair. -/
theorem C2_counterexample :
    (check_collision (Collider.Circle 1) ⟨0, 0⟩
        (Collider.Circle 1) ⟨0, 0⟩).collided = true ∧
      (check_collision (Collider.Circle 1) ⟨0, 0⟩
        (Collider.Circle 1) ⟨0, 0⟩).normal = ⟨1, 0⟩ ∧
      ¬ ((check_collision (Collider.Circle 1) ⟨0, 0⟩
            (Collider.Circle 1) ⟨0, 0⟩).normal =
          Vec2.neg (check_collision (Collider.Circle 1) ⟨0, 0⟩
            (Collider.Circle 1) ⟨0, 0⟩).normal) := by
  have h0 : (Vec2.mk 0 0 - Vec2.mk 0 0).length_squared = 0 := by
    unfold Vec2.length_squared
    rw [Vec2.sub_def]
    norm_num
  have hlt : (Vec2.mk 0 0 - Vec2.mk 0 0).length_squared <
      ((1 : ℝ) + 1) * (1 + 1) := by
    rw [h0]; norm_num
  have hcc : check_collision (Collider.Circle 1) ⟨0, 0⟩
      (Collider.Circle 1) ⟨0, 0⟩ = circle_circle ⟨0, 0⟩ 1 ⟨0, 0⟩ 1 := rfl
  rw [hcc, circle_circle_pos _ _ _ _ hlt]
  have hns : ¬ epsilon <
      Real.sqrt ((Vec2.mk 0 0 - Vec2.mk 0 0).length_squared) := by
    rw [h0, Real.sqrt_zero]
    norm_num [epsilon]
  rw [if_neg hns]
  refine ⟨rfl, rfl, fun hcontra => ?_⟩
  have hx := congrArg Vec2.x hcontra
  norm_num [Vec2.neg, CollisionData.new] at hx

/-- Degenerate swap inputs, on which the collision code picks a fixed
fallback normal in both argument orders: overlapping circles whose center
distance is at or below the epsilon threshold, and overlapping rectangles
whose center offset along the chosen separation axis is zero. All other
inputs (including every circle-rect pair) are non-degenerate. -/
noncomputable def swap_degenerate : Collider → Vec2 → Collider → Vec2 → Prop
  | Collider.Circle r1, p1, Collider.Circle r2, p2 =>
      (p1 - p2).length_squared < (r1 + r2) * (r1 + r2) ∧
        Real.sqrt ((p1 - p2).length_squared) ≤ epsilon
  | Collider.Rect w1 h1, p1, Collider.Rect w2 h2, p2 =>
      0 < (w1 / 2 + w2 / 2) - |p1.x - p2.x| ∧
        0 < (h1 / 2 + h2 / 2) - |p1.y - p2.y| ∧
        (if (w1 / 2 + w2 / 2) - |p1.x - p2.x| <
            (h1 / 2 + h2 / 2) - |p1.y - p2.y|
         then p1.x = p2.x else p1.y = p2.y)
  | _, _, _, _ => False

theorem length_squared_sub_comm (p1 p2 : Vec2) :
    (p2 - p1).length_squared = (p1 - p2).length_squared := by
  unfold Vec2.length_squared
  rw [Vec2.sub_def, Vec2.sub_def]
  ring

theorem circle_circle_swap (p1 : Vec2) (r1 : ℝ) (p2 : Vec2) (r2 : ℝ) :
    (circle_circle p2 r2 p1 r1).collided = (circle_circle p1 r1 p2 r2).collided ∧
      (circle_circle p2 r2 p1 r1).penetration_depth =
        (circle_circle p1 r1 p2 r2).penetration_depth ∧
      (¬ ((p1 - p2).length_squared < (r1 + r2) * (r1 + r2) ∧
            Real.sqrt ((p1 - p2).length_squared) ≤ epsilon) →
        (circle_circle p2 r2 p1 r1).normal =
          Vec2.neg (circle_circle p1 r1 p2 r2).normal) := by
  have hsym := length_squared_sub_comm p1 p2
  have hsum : r2 + r1 = r1 + r2 := add_comm r2 r1
  by_cases hcol : (p1 - p2).length_squared < (r1 + r2) * (r1 + r2)
  · have hcol2 : (p2 - p1).length_squared < (r2 + r1) * (r2 + r1) := by
      rw [hsym, hsum]; exact hcol
    rw [circle_circle_pos p1 r1 p2 r2 hcol, circle_circle_pos p2 r2 p1 r1 hcol2]
    refine ⟨rfl, ?_, fun hdeg => ?_⟩
    · show r2 + r1 - Real.sqrt ((p2 - p1).length_squared) =
        r1 + r2 - Real.sqrt ((p1 - p2).length_squared)
      rw [hsym, hsum]
    · have heps : epsilon < Real.sqrt ((p1 - p2).length_squared) := by
        rcases not_and_or.mp hdeg with hc | hc
        · exact absurd hcol hc
        · exact not_le.mp hc
      have heps2 : epsilon < Real.sqrt ((p2 - p1).length_squared) := by
        rw [hsym]; exact heps
      show (if epsilon < Real.sqrt ((p2 - p1).length_squared)
            then (p2 - p1).div (Real.sqrt ((p2 - p1).length_squared))
            else ⟨1, 0⟩) =
          Vec2.neg (if epsilon < Real.sqrt ((p1 - p2).length_squared)
            then (p1 - p2).div (Real.sqrt ((p1 - p2).length_squared))
            else ⟨1, 0⟩)
      rw [if_pos heps, if_pos heps2, hsym]
      unfold Vec2.div Vec2.neg
      rw [Vec2.sub_def, Vec2.sub_def]
      refine congrArg₂ Vec2.mk ?_ ?_ <;> ring
  · have hcol2 : ¬ (p2 - p1).length_squared < (r2 + r1) * (r2 + r1) := by
      rw [hsym, hsum]; exact hcol
    rw [circle_circle_none p1 r1 p2 r2 hcol, circle_circle_none p2 r2 p1 r1 hcol2]
    refine ⟨rfl, rfl, fun _ => ?_⟩
    show (⟨0, 0⟩ : Vec2) = Vec2.neg ⟨0, 0⟩
    unfold Vec2.neg
    norm_num

theorem rect_rect_pos (p1 : Vec2) (w1 h1 : ℝ) (p2 : Vec2) (w2 h2 : ℝ)
    (hx : 0 < (w1 / 2 + w2 / 2) - |(p1 - p2).x|)
    (hy : 0 < (h1 / 2 + h2 / 2) - |(p1 - p2).y|) :
    rect_rect p1 w1 h1 p2 w2 h2 =
      if (w1 / 2 + w2 / 2) - |(p1 - p2).x| < (h1 / 2 + h2 / 2) - |(p1 - p2).y|
      then CollisionData.new ((w1 / 2 + w2 / 2) - |(p1 - p2).x|)
        ⟨if 0 < (p1 - p2).x then 1 else -1, 0⟩
      else CollisionData.new ((h1 / 2 + h2 / 2) - |(p1 - p2).y|)
        ⟨0, if 0 < (p1 - p2).y then 1 else -1⟩ := by
  simp only [rect_rect]
  rw [if_pos ⟨hx, hy⟩]

theorem rect_rect_none (p1 : Vec2) (w1 h1 : ℝ) (p2 : Vec2) (w2 h2 : ℝ)
    (h : ¬ (0 < (w1 / 2 + w2 / 2) - |(p1 - p2).x| ∧
        0 < (h1 / 2 + h2 / 2) - |(p1 - p2).y|)) :
    rect_rect p1 w1 h1 p2 w2 h2 = CollisionData.none := by
  simp only [rect_rect]
  rw [if_neg h]

theorem rect_rect_swap (p1 : Vec2) (w1 h1 : ℝ) (p2 : Vec2) (w2 h2 : ℝ) :
    (rect_rect p2 w2 h2 p1 w1 h1).collided =
        (rect_rect p1 w1 h1 p2 w2 h2).collided ∧
      (rect_rect p2 w2 h2 p1 w1 h1).penetration_depth =
        (rect_rect p1 w1 h1 p2 w2 h2).penetration_depth ∧
      (¬ (0 < (w1 / 2 + w2 / 2) - |p1.x - p2.x| ∧
            0 < (h1 / 2 + h2 / 2) - |p1.y - p2.y| ∧
            (if (w1 / 2 + w2 / 2) - |p1.x - p2.x| <
                (h1 / 2 + h2 / 2) - |p1.y - p2.y|
             then p1.x = p2.x else p1.y = p2.y)) →
        (rect_rect p2 w2 h2 p1 w1 h1).normal =
          Vec2.neg (rect_rect p1 w1 h1 p2 w2 h2).normal) := by
  have hax : |(p2 - p1).x| = |(p1 - p2).x| := by
    rw [Vec2.sub_def, Vec2.sub_def]
    exact abs_sub_comm p2.x p1.x
  have hay : |(p2 - p1).y| = |(p1 - p2).y| := by
    rw [Vec2.sub_def, Vec2.sub_def]
    exact abs_sub_comm p2.y p1.y
  have hwx : w2 / 2 + w1 / 2 = w1 / 2 + w2 / 2 := add_comm _ _
  have hwy : h2 / 2 + h1 / 2 = h1 / 2 + h2 / 2 := add_comm _ _
  have hxx : (p1 - p2).x = p1.x - p2.x := by rw [Vec2.sub_def]
  have hyy : (p1 - p2).y = p1.y - p2.y := by rw [Vec2.sub_def]
  by_cases hcol : 0 < (w1 / 2 + w2 / 2) - |(p1 - p2).x| ∧
      0 < (h1 / 2 + h2 / 2) - |(p1 - p2).y|
  · obtain ⟨hx, hy⟩ := hcol
    have hx2 : 0 < (w2 / 2 + w1 / 2) - |(p2 - p1).x| := by
      rw [hax, hwx]; exact hx
    have hy2 : 0 < (h2 / 2 + h1 / 2) - |(p2 - p1).y| := by
      rw [hay, hwy]; exact hy
    rw [rect_rect_pos p1 w1 h1 p2 w2 h2 hx hy,
      rect_rect_pos p2 w2 h2 p1 w1 h1 hx2 hy2]
    by_cases haxis : (w1 / 2 + w2 / 2) - |(p1 - p2).x| <
        (h1 / 2 + h2 / 2) - |(p1 - p2).y|
    · have haxis2 : (w2 / 2 + w1 / 2) - |(p2 - p1).x| <
          (h2 / 2 + h1 / 2) - |(p2 - p1).y| := by
        rw [hax, hay, hwx, hwy]; exact haxis
      rw [if_pos haxis, if_pos haxis2]
      refine ⟨rfl, ?_, fun hdeg => ?_⟩
      · show (w2 / 2 + w1 / 2) - |(p2 - p1).x| =
          (w1 / 2 + w2 / 2) - |(p1 - p2).x|
        rw [hax, hwx]
      · have hne : p1.x ≠ p2.x := by
          intro hcontra
          apply hdeg
          refine ⟨by rwa [← hxx], by rwa [← hyy], ?_⟩
          rw [if_pos (by rwa [hxx, hyy] at haxis)]
          exact hcontra
        have hsub : (p2 - p1).x = -((p1 - p2).x) := by
          rw [Vec2.sub_def, Vec2.sub_def]
          ring
        show (⟨if 0 < (p2 - p1).x then 1 else -1, 0⟩ : Vec2) =
          Vec2.neg ⟨if 0 < (p1 - p2).x then 1 else -1, 0⟩
        unfold Vec2.neg
        rcases lt_trichotomy ((p1 - p2).x) 0 with hlt | heq | hgt
        · rw [if_pos (show 0 < (p2 - p1).x by rw [hsub]; linarith),
            if_neg (not_lt.mpr (le_of_lt hlt))]
          norm_num
        · refine absurd ?_ hne
          rw [hxx] at heq
          linarith [sub_eq_zero.mp heq]
        · rw [if_neg (show ¬ 0 < (p2 - p1).x by rw [hsub]; linarith), if_pos hgt]
          norm_num
    · have haxis2 : ¬ (w2 / 2 + w1 / 2) - |(p2 - p1).x| <
          (h2 / 2 + h1 / 2) - |(p2 - p1).y| := by
        rw [hax, hay, hwx, hwy]; exact haxis
      rw [if_neg haxis, if_neg haxis2]
      refine ⟨rfl, ?_, fun hdeg => ?_⟩
      · show (h2 / 2 + h1 / 2) - |(p2 - p1).y| =
          (h1 / 2 + h2 / 2) - |(p1 - p2).y|
        rw [hay, hwy]
      · have hne : p1.y ≠ p2.y := by
          intro hcontra
          apply hdeg
          refine ⟨by rwa [← hxx], by rwa [← hyy], ?_⟩
          rw [if_neg (by rwa [hxx, hyy] at haxis)]
          exact hcontra
        have hsub : (p2 - p1).y = -((p1 - p2).y) := by
          rw [Vec2.sub_def, Vec2.sub_def]
          ring
        show (⟨0, if 0 < (p2 - p1).y then 1 else -1⟩ : Vec2) =
          Vec2.neg ⟨0, if 0 < (p1 - p2).y then 1 else -1⟩
        unfold Vec2.neg
        rcases lt_trichotomy ((p1 - p2).y) 0 with hlt | heq | hgt
        · rw [if_pos (show 0 < (p2 - p1).y by rw [hsub]; linarith),
            if_neg (not_lt.mpr (le_of_lt hlt))]
          norm_num
        · refine absurd ?_ hne
          rw [hyy] at heq
          linarith [sub_eq_zero.mp heq]
        · rw [if_neg (show ¬ 0 < (p2 - p1).y by rw [hsub]; linarith), if_pos hgt]
          norm_num
  · have hcol2 : ¬ (0 < (w2 / 2 + w1 / 2) - |(p2 - p1).x| ∧
        0 < (h2 / 2 + h1 / 2) - |(p2 - p1).y|) := by
      rw [hax, hay, hwx, hwy]; exact hcol
    rw [rect_rect_none p1 w1 h1 p2 w2 h2 hcol,
      rect_rect_none p2 w2 h2 p1 w1 h1 hcol2]
    refine ⟨rfl, rfl, fun _ => ?_⟩
    show (⟨0, 0⟩ : Vec2) = Vec2.neg ⟨0, 0⟩
    unfold Vec2.neg
    norm_num

/-- C2 (amended): swapping the two shapes passed to `check_collision` yields
the same collided flag and the same penetration depth for every shape-pair
combination, and an exactly negated normal except on the degenerate inputs
where the code picks a fixed fallback normal in both orders — overlapping
circles with center distance at or below epsilon, and overlapping rectangles
with zero center offset along the chosen separation axis; circle-rect pairs
are never degenerate. -/
theorem C2_swap_collision (c1 : Collider) (p1 : Vec2) (c2 : Collider)
    (p2 : Vec2) :
    (check_collision c2 p2 c1 p1).collided =
        (check_collision c1 p1 c2 p2).collided ∧
      (check_collision c2 p2 c1 p1).penetration_depth =
        (check_collision c1 p1 c2 p2).penetration_depth ∧
      (¬ swap_degenerate c1 p1 c2 p2 →
        (check_collision c2 p2 c1 p1).normal =
          Vec2.neg (check_collision c1 p1 c2 p2).normal) := by
  cases c1 with
  | Circle r1 =>
      cases c2 with
      | Circle r2 => exact circle_circle_swap p1 r1 p2 r2
      | Rect w2 h2 =>
          refine ⟨rfl, rfl, fun _ => rfl⟩
  | Rect w1 h1 =>
      cases c2 with
      | Circle r2 =>
          refine ⟨rfl, rfl, fun _ => ?_⟩
          show (circle_rect p2 r2 p1 w1 h1).normal =
            Vec2.neg (Vec2.neg (circle_rect p2 r2 p1 w1 h1).normal)
          rw [vec_neg_neg]
      | Rect w2 h2 => exact rect_rect_swap p1 w1 h1 p2 w2 h2

/-- Witness for the amended C2: two radius-2 circles 3 apart are a
non-degenerate pair and the swapped normal is the exact negation. -/
theorem C2_swap_collision_witness :
    ¬ swap_degenerate (Collider.Circle 2) ⟨0, 0⟩ (Collider.Circle 2) ⟨3, 0⟩ ∧
      (check_collision (Collider.Circle 2) ⟨3, 0⟩
          (Collider.Circle 2) ⟨0, 0⟩).normal =
        Vec2.neg (check_collision (Collider.Circle 2) ⟨0, 0⟩
          (Collider.Circle 2) ⟨3, 0⟩).normal := by
  have h9 : (Vec2.mk 0 0 - Vec2.mk 3 0).length_squared = 9 := by
    unfold Vec2.length_squared
    rw [Vec2.sub_def]
    norm_num
  have hnd : ¬ swap_degenerate (Collider.Circle 2) ⟨0, 0⟩
      (Collider.Circle 2) ⟨3, 0⟩ := by
    intro hdeg
    obtain ⟨-, hle⟩ := hdeg
    rw [h9, show (9 : ℝ) = 3 ^ 2 by norm_num,
      Real.sqrt_sq (by norm_num : (0 : ℝ) ≤ 3)] at hle
    norm_num [epsilon] at hle
  exact ⟨hnd,
    (C2_swap_collision (Collider.Circle 2) ⟨0, 0⟩
      (Collider.Circle 2) ⟨3, 0⟩).2.2 hnd⟩

end MacroRoto
